import Mathlib

/-!
Verification of the Tradee repository's signal-scoring, indicator and
validation layers against its natural-language specification.

The TypeScript sources are shallowly embedded: JavaScript numbers are
modelled as exact rationals (ℚ), `null`/`undefined` as `Option`, and
JavaScript truthiness (`if (x)` treating `0`, `null`, `""` as false) by
explicit helpers.  Stateful fetches (Yahoo quotes, the Python service,
Redis) are cut at the function boundary: each handler's pure core takes
the fetched data as arguments.
-/

set_option maxHeartbeats 1000000

namespace Tradee

/-- JavaScript truthiness of a nullable number: `null`/`undefined` and `0`
are falsy. -/
def jsTruthyQ : Option ℚ → Bool
  | none => false
  | some v => v ≠ 0

/-- JavaScript `x || d` on a nullable number: falsy (`null` or `0`) falls
back to the default. -/
def jsOrQ (x : Option ℚ) (d : ℚ) : ℚ :=
  match x with
  | none => d
  | some v => if v = 0 then d else v

/-- JavaScript `Math.round`: round half toward positive infinity. -/
def jsRound (x : ℚ) : ℤ := ⌊x + 1 / 2⌋

/-! ## IndicatorBank — `lib/indicators/technical.ts` (src/unnamed/part_012) -/

/-- `calculateSMA(prices, period)`: simple moving average of the last
`period` prices, `null` when the window is shorter than `period`. -/
def calculateSMA (prices : List ℚ) (period : ℕ) : Option ℚ :=
  if prices.length < period then none
  else
    let slice := prices.drop (prices.length - period)
    some (slice.sum / period)

/-- `calculateEMA(prices, period)`: exponential moving average seeded with
the SMA of the first `period` prices, `null` when the window is shorter
than `period`. -/
def calculateEMA (prices : List ℚ) (period : ℕ) : Option ℚ :=
  if prices.length < period then none
  else
    let multiplier : ℚ := 2 / (period + 1)
    let seed := (prices.take period).sum / period
    some ((prices.drop period).foldl (fun ema p => (p - ema) * multiplier + ema) seed)

/-- One step of Wilder smoothing in `calculateRSI`: fold the pair
(avgGain, avgLoss) over a price difference. -/
def wilderStep (period : ℕ) (gl : ℚ × ℚ) (d : ℚ) : ℚ × ℚ :=
  if 0 ≤ d then
    ((gl.1 * ((period : ℚ) - 1) + d) / period, gl.2 * ((period : ℚ) - 1) / period)
  else
    (gl.1 * ((period : ℚ) - 1) / period, (gl.2 * ((period : ℚ) - 1) - d) / period)

/-- Successive price differences `prices[i+1] - prices[i]`. -/
def priceDiffs (prices : List ℚ) : List ℚ :=
  (prices.zip prices.tail).map fun p => p.2 - p.1

/-- The final (avgGain, avgLoss) pair of `calculateRSI`: seeded from the
first `period` differences, then Wilder-smoothed over the rest. -/
def wilderAvgs (prices : List ℚ) (period : ℕ) : ℚ × ℚ :=
  let diffs := priceDiffs prices
  let seedDiffs := diffs.take period
  let gains := (seedDiffs.map fun d => if 0 ≤ d then d else 0).sum
  let losses := (seedDiffs.map fun d => if 0 ≤ d then 0 else -d).sum
  (diffs.drop period).foldl (wilderStep period) (gains / period, losses / period)

/-- `calculateRSI(prices, period)`: Wilder-smoothed RSI, `null` when fewer
than `period + 1` prices are available; returns `100` when the smoothed
average loss is zero. -/
def calculateRSI (prices : List ℚ) (period : ℕ) : Option ℚ :=
  if prices.length < period + 1 then none
  else
    let gl := wilderAvgs prices period
    if gl.2 = 0 then some 100
    else some (100 - 100 / (1 + gl.1 / gl.2))

/-- Result record of `calculateMACD`. -/
structure MACDResult where
  macd : ℚ
  signal : ℚ
  histogram : ℚ
  deriving DecidableEq, Repr

/-- The MACD history built inside `calculateMACD`: for each prefix length
`i` from 26 to `prices.length`, push `EMA12 - EMA26` of the prefix when
both are truthy (JavaScript `if (e12 && e26)` drops `null` and `0`). -/
def macdHistory (prices : List ℚ) : List ℚ :=
  ((List.range (prices.length + 1 - 26)).map (· + 26)).filterMap fun i =>
    let slice := prices.take i
    match calculateEMA slice 12, calculateEMA slice 26 with
    | some e12, some e26 => if e12 = 0 ∨ e26 = 0 then none else some (e12 - e26)
    | _, _ => none

/-- `calculateMACD(prices)`: MACD line, 9-period signal line and histogram.
The guard `if (!ema12 || !ema26) return null` is JavaScript truthiness, so
a zero EMA also yields `null`; the signal line is `calculateEMA(history, 9)
|| 0`, substituting `0` when the history is too short. -/
def calculateMACD (prices : List ℚ) : Option MACDResult :=
  match calculateEMA prices 12, calculateEMA prices 26 with
  | some e12, some e26 =>
      if e12 = 0 ∨ e26 = 0 then none
      else
        let macd := e12 - e26
        let signal := jsOrQ (calculateEMA (macdHistory prices) 9) 0
        some ⟨macd, signal, macd - signal⟩
  | _, _ => none

/-- Result record of `calculateBollingerBands`. -/
structure BollingerResult where
  upper : ℚ
  middle : ℚ
  lower : ℚ
  deriving DecidableEq, Repr

/-- The population variance of the last `period` prices around `sma`,
as computed inside `calculateBollingerBands`. -/
def bollingerVariance (prices : List ℚ) (period : ℕ) (sma : ℚ) : ℚ :=
  let slice := prices.drop (prices.length - period)
  (slice.map fun p => (p - sma) ^ 2).sum / period

/-- `calculateBollingerBands(prices, period, stdDev)`.  The source takes
`Math.sqrt(variance)`; an exact rational square root does not exist, so the
square root is passed in as a function parameter `sqrtFn` — every claim
below holds for all `sqrtFn`, since none inspects the band offsets.  The
guard `if (!sma) return null` is JavaScript truthiness: `null` or a zero
SMA both yield `null`. -/
def calculateBollingerBands (sqrtFn : ℚ → ℚ) (prices : List ℚ) (period : ℕ)
    (stdDev : ℚ) : Option BollingerResult :=
  match calculateSMA prices period with
  | none => none
  | some sma =>
      if sma = 0 then none
      else
        let sd := sqrtFn (bollingerVariance prices period sma)
        some ⟨sma + sd * stdDev, sma, sma - sd * stdDev⟩

/-! ## Signals and `calculateAllIndicators` -/

/-- A buy/sell/neutral signal as used throughout the indicator layer. -/
inductive Signal where
  | buy
  | sell
  | neutral
  deriving DecidableEq, Repr

/-- One chart point handed to `calculateAllIndicators`; only the close is
read there, and closes are filtered with `p !== null`, so the close is
nullable. -/
structure ChartData where
  close : Option ℚ
  deriving DecidableEq, Repr

/-- The `signals` record of `TechnicalIndicators`. -/
structure Signals where
  rsi : Signal
  macd : Signal
  sma : Signal
  overall : Signal
  deriving DecidableEq, Repr

/-- The `TechnicalIndicators` record returned by `calculateAllIndicators`. -/
structure TechnicalIndicators where
  rsi : Option ℚ
  macd : Option MACDResult
  sma20 : Option ℚ
  sma50 : Option ℚ
  sma200 : Option ℚ
  bollingerBands : Option BollingerResult
  signals : Signals
  deriving DecidableEq, Repr

/-- The RSI sub-signal of `calculateAllIndicators`: an explicit
`rsi !== null` check (not truthiness), then threshold at 30/70. -/
def rsiSignalOf (rsi : Option ℚ) : Signal :=
  match rsi with
  | none => Signal.neutral
  | some r => if r < 30 then Signal.buy else if r > 70 then Signal.sell else Signal.neutral

/-- The MACD sub-signal: an object is always truthy, so only `null` is
skipped. -/
def macdSignalOf (macd : Option MACDResult) : Signal :=
  match macd with
  | none => Signal.neutral
  | some m =>
      if m.histogram > 0 ∧ m.macd > m.signal then Signal.buy
      else if m.histogram < 0 ∧ m.macd < m.signal then Signal.sell
      else Signal.neutral

/-- The SMA sub-signal: `if (sma20 && sma50)` is numeric truthiness (zero
counts as missing); `currentPrice` is `closePrices[length-1]`, `undefined`
on an empty list, and comparisons against `undefined` are false. -/
def smaSignalOf (currentPrice : Option ℚ) (sma20 sma50 : Option ℚ) : Signal :=
  if jsTruthyQ sma20 ∧ jsTruthyQ sma50 then
    match currentPrice, sma20, sma50 with
    | some c, some s20, some s50 =>
        if c > s20 ∧ s20 > s50 then Signal.buy
        else if c < s20 ∧ s20 < s50 then Signal.sell
        else Signal.neutral
    | _, _, _ => Signal.neutral
  else Signal.neutral

/-- The majority vote over the three sub-signals: buy when at least two
vote buy, else sell when at least two vote sell, else neutral. -/
def overallSignalOf (a b c : Signal) : Signal :=
  let sigs := [a, b, c]
  let buyCount := (sigs.filter (· = Signal.buy)).length
  let sellCount := (sigs.filter (· = Signal.sell)).length
  if buyCount ≥ 2 then Signal.buy
  else if sellCount ≥ 2 then Signal.sell
  else Signal.neutral

/-- `calculateAllIndicators(chartData)`: compute every indicator over the
non-null closes and derive the four signals.  `sqrtFn` models `Math.sqrt`
for the Bollinger bands (see `calculateBollingerBands`). -/
def calculateAllIndicators (sqrtFn : ℚ → ℚ) (chartData : List ChartData) :
    TechnicalIndicators :=
  let closePrices := chartData.filterMap (·.close)
  let rsi := calculateRSI closePrices 14
  let macd := calculateMACD closePrices
  let sma20 := calculateSMA closePrices 20
  let sma50 := calculateSMA closePrices 50
  let sma200 := calculateSMA closePrices 200
  let bollingerBands := calculateBollingerBands sqrtFn closePrices 20 2
  let currentPrice := closePrices.getLast?
  let rsiSignal := rsiSignalOf rsi
  let macdSignal := macdSignalOf macd
  let smaSignal := smaSignalOf currentPrice sma20 sma50
  { rsi := rsi
    macd := macd
    sma20 := sma20
    sma50 := sma50
    sma200 := sma200
    bollingerBands := bollingerBands
    signals :=
      { rsi := rsiSignal
        macd := macdSignal
        sma := smaSignal
        overall := overallSignalOf rsiSignal macdSignal smaSignal } }

/-! ## Sentiment — `lib/api/news.ts` -/

/-- JavaScript `\w` word characters: letters, digits, underscore. -/
def isWordChar (c : Char) : Bool :=
  c.isAlphanum || c = '_'

/-- Whether `w` matches at the head of `s` with a word boundary after it:
`s` starts with `w` and the character following the match, if any, is not
a word character. -/
def headMatch (w s : List Char) : Bool :=
  w.isPrefixOf s &&
    match (s.drop w.length).head? with
    | none => true
    | some d => !isWordChar d

/-- Count of the matches of the regex `\b w \b` (global flag) in `s`;
`prevWord` records whether the previous character was a word character.
Boundary-delimited matches of a fixed word cannot overlap, so counting
match positions agrees with the JavaScript `match(...).length`. -/
def countWord (w : List Char) : List Char → Bool → ℕ
  | [], _ => 0
  | c :: rest, prevWord =>
      (if !prevWord && headMatch w (c :: rest) then 1 else 0)
        + countWord w rest (isWordChar c)

/-- The positive keyword list of `analyzeSentiment`. -/
def positiveWords : List String :=
  ["bullish", "surge", "rally", "gain", "profit", "growth", "up", "high",
   "strong", "beat", "exceed", "positive", "rise", "jump", "soar", "boom",
   "success", "win", "improve", "better", "breakthrough", "record"]

/-- The negative keyword list of `analyzeSentiment`. -/
def negativeWords : List String :=
  ["bearish", "crash", "fall", "loss", "decline", "down", "low", "weak",
   "miss", "disappoint", "negative", "drop", "plunge", "slump", "recession",
   "fail", "concern", "worry", "risk", "threat", "warning", "crisis"]

/-- `analyzeSentiment(text)`: net keyword count over the lower-cased text,
normalized by `max(|score|, 5)` and clamped to `[-1, 1]`. -/
def analyzeSentiment (text : String) : ℚ :=
  let lowerText := text.data.map Char.toLower
  let score : ℤ :=
    (positiveWords.map fun w => (countWord w.data lowerText false : ℤ)).sum
      - (negativeWords.map fun w => (countWord w.data lowerText false : ℤ)).sum
  let maxScore : ℚ := max |(score : ℚ)| 5
  max (-1) (min 1 ((score : ℚ) / maxScore))

/-- A news article as consumed by the sentiment layer; the description may
be absent. -/
structure NewsArticle where
  title : String
  description : Option String
  deriving DecidableEq, Repr

/-- The text scored for one article: `title description-or-empty` joined
with a space (`article.description || ''`). -/
def articleText (a : NewsArticle) : String :=
  a.title ++ " " ++ (match a.description with | none => "" | some d => d)

/-- `calculateAverageSentiment(articles)`: `0` for an empty list, else the
mean of the per-article sentiments. -/
def calculateAverageSentiment (articles : List NewsArticle) : ℚ :=
  if articles.length = 0 then 0
  else
    let sentiments := articles.map fun a => analyzeSentiment (articleText a)
    sentiments.sum / sentiments.length

/-! ## `scoreStock` — `lib/quant/stock-picker.ts` -/

/-- The fields of a Yahoo quote that `scoreStock` reads. -/
structure Quote where
  name : String
  price : ℚ
  previousClose : ℚ
  volume : ℚ
  changePercent : ℚ
  deriving DecidableEq, Repr

/-- The fundamentals snapshot read by `scoreStock`; every field is
nullable and gated by JavaScript truthiness. -/
structure Fundamentals where
  pe : Option ℚ
  roe : Option ℚ
  debtToEquity : Option ℚ
  profitMargin : Option ℚ
  deriving DecidableEq, Repr

/-- Risk label of a `StockScore`. -/
inductive RiskLevel where
  | low
  | medium
  | high
  deriving DecidableEq, Repr

/-- The three sub-scores of a `StockScore`, after `Math.round`. -/
structure SubScores where
  technical : ℤ
  fundamental : ℤ
  sentiment : ℤ
  deriving DecidableEq, Repr

/-- The per-indicator signals carried on a `StockScore`. -/
structure ScoreSignals where
  rsi : Signal
  macd : Signal
  sma : Signal
  deriving DecidableEq, Repr

/-- The `StockScore` record returned by `scoreStock` (the human-readable
`reasoning` strings are display-only and omitted). -/
structure StockScore where
  ticker : String
  name : String
  price : ℚ
  totalScore : ℤ
  scores : SubScores
  signals : ScoreSignals
  targetPrice : ℚ
  riskLevel : RiskLevel
  deriving DecidableEq, Repr

/-- RSI adjustment to the technical score: the whole block is gated by
`if (indicators.rsi)`, JavaScript truthiness, so RSI `null` or `0` adds
nothing. -/
def rsiAdj (rsi : Option ℚ) : ℚ :=
  match rsi with
  | none => 0
  | some r =>
      if r = 0 then 0
      else if r < 30 then 20
      else if r > 70 then -20
      else if 40 ≤ r ∧ r ≤ 60 then 10
      else 0

/-- MACD adjustment to the technical score: +15 on a positive histogram,
−10 on a negative one. -/
def macdAdj (macd : Option MACDResult) : ℚ :=
  match macd with
  | none => 0
  | some m => if m.histogram > 0 then 15 else if m.histogram < 0 then -10 else 0

/-- SMA (golden-cross) adjustment: truthiness on both averages, +15 when
`sma20 > sma50`, −10 when `sma20 < sma50`. -/
def smaAdj (sma20 sma50 : Option ℚ) : ℚ :=
  if jsTruthyQ sma20 ∧ jsTruthyQ sma50 then
    match sma20, sma50 with
    | some s20, some s50 => if s20 > s50 then 15 else if s20 < s50 then -10 else 0
    | _, _ => 0
  else 0

/-- Volume-surge adjustment: +10 when `quote.volume > quote.previousClose
* 1.5`. -/
def volumeAdj (q : Quote) : ℚ :=
  if q.volume > q.previousClose * 1.5 then 10 else 0

/-- The technical score local of `scoreStock`: 50 plus the four
adjustments. -/
def technicalScoreOf (q : Quote) (ind : TechnicalIndicators) : ℚ :=
  50 + rsiAdj ind.rsi + macdAdj ind.macd + smaAdj ind.sma20 ind.sma50 + volumeAdj q

/-- P/E adjustment: +15 for a truthy P/E strictly between 0 and 20, −10
above 40. -/
def peAdj (pe : Option ℚ) : ℚ :=
  match pe with
  | none => 0
  | some v =>
      if v = 0 then 0
      else if v < 20 ∧ v > 0 then 15
      else if v > 40 then -10
      else 0

/-- ROE adjustment: +15 for a truthy ROE above 0.15. -/
def roeAdj (roe : Option ℚ) : ℚ :=
  match roe with
  | none => 0
  | some v => if v = 0 then 0 else if v > 0.15 then 15 else 0

/-- Debt-to-equity adjustment: +10 below 1, −10 above 2. -/
def debtAdj (dte : Option ℚ) : ℚ :=
  match dte with
  | none => 0
  | some v => if v = 0 then 0 else if v < 1 then 10 else if v > 2 then -10 else 0

/-- Profit-margin adjustment: +10 above 0.2. -/
def marginAdj (margin : Option ℚ) : ℚ :=
  match margin with
  | none => 0
  | some v => if v = 0 then 0 else if v > 0.2 then 10 else 0

/-- The fundamental score local of `scoreStock`: 50 plus the four
adjustments. -/
def fundamentalScoreOf (f : Fundamentals) : ℚ :=
  50 + peAdj f.pe + roeAdj f.roe + debtAdj f.debtToEquity + marginAdj f.profitMargin

/-- Sentiment adjustment from the average article sentiment. -/
def sentimentAdj (avg : ℚ) : ℚ :=
  if avg > 0.3 then 20
  else if avg > 0.1 then 10
  else if avg < -0.3 then -20
  else if avg < -0.1 then -10
  else 0

/-- The sentiment score local of `scoreStock`: 50, adjusted only when at
least one article is available. -/
def sentimentScoreOf (news : List NewsArticle) : ℚ :=
  if news.length > 0 then
    let sentiments := news.map fun a => analyzeSentiment (articleText a)
    50 + sentimentAdj (sentiments.sum / sentiments.length)
  else 50

/-- The weighted total score local of `scoreStock`: technical 40%,
fundamental 35%, sentiment 25%. -/
def totalScoreOf (q : Quote) (ind : TechnicalIndicators) (f : Fundamentals)
    (news : List NewsArticle) : ℚ :=
  technicalScoreOf q ind * 0.4 + fundamentalScoreOf f * 0.35
    + sentimentScoreOf news * 0.25

/-- The gate `fundamentals.debtToEquity && fundamentals.debtToEquity > 2`
(truthiness on the nullable number). -/
def dteHigh (dte : Option ℚ) : Bool :=
  match dte with
  | none => false
  | some v => v ≠ 0 && v > 2

/-- The risk label of `scoreStock`, decided on the unrounded total. -/
def riskLevelOf (q : Quote) (f : Fundamentals) (total : ℚ) : RiskLevel :=
  if dteHigh f.debtToEquity then RiskLevel.high
  else if q.changePercent > 50 ∨ q.changePercent < -50 then RiskLevel.high
  else if total > 70 then RiskLevel.low
  else RiskLevel.medium

/-- `scoreStock(ticker)` after its data fetches: the pure scoring of one
instrument from its quote, chart history, fundamentals and news. -/
def scoreStock (sqrtFn : ℚ → ℚ) (ticker : String) (q : Quote)
    (chartData : List ChartData) (f : Fundamentals)
    (news : List NewsArticle) : StockScore :=
  let indicators := calculateAllIndicators sqrtFn chartData
  let technicalScore := technicalScoreOf q indicators
  let fundamentalScore := fundamentalScoreOf f
  let sentimentScore := sentimentScoreOf news
  let totalScore := totalScoreOf q indicators f news
  let priceMultiplier := 1 + (totalScore - 50) / 100
  let targetPrice := q.price * priceMultiplier
  { ticker := ticker
    name := q.name
    price := q.price
    totalScore := jsRound totalScore
    scores :=
      { technical := jsRound technicalScore
        fundamental := jsRound fundamentalScore
        sentiment := jsRound sentimentScore }
    signals :=
      { rsi := indicators.signals.rsi
        macd := indicators.signals.macd
        sma := indicators.signals.sma }
    targetPrice := (jsRound (targetPrice * 100) : ℚ) / 100
    riskLevel := riskLevelOf q f totalScore }

/-! ## Signals route — `app/api/analysis/signals/route.ts` -/

/-- The `overall_signal` object of the fallback payload literal. -/
structure OverallSignalBody where
  signal : String
  score : ℚ
  color : String
  confidence : String
  deriving DecidableEq, Repr

/-- The `technical_analysis` / `fundamental_analysis` objects of the
fallback payload literal (`signals: []`). -/
structure AnalysisBody where
  score : ℚ
  signalTexts : List String
  deriving DecidableEq, Repr

/-- One timeframe entry of the fallback payload literal. -/
structure TimeframeBody where
  timeframe : String
  signal : String
  score : ℚ
  description : String
  deriving DecidableEq, Repr

/-- The payload returned by the signals route when the Python service
call fails (`key_indicators: {}` is an empty object and is omitted). -/
structure FallbackSignals where
  ticker : String
  errorMessage : String
  overallSignal : OverallSignalBody
  technicalAnalysis : AnalysisBody
  fundamentalAnalysis : AnalysisBody
  sentimentScore : ℚ
  intraday : TimeframeBody
  swing : TimeframeBody
  longTerm : TimeframeBody
  deriving DecidableEq, Repr

/-- The literal fallback body built in the route's inner `catch`. -/
def fallbackSignals (t : String) : FallbackSignals :=
  { ticker := t
    errorMessage := "Unable to fetch trading signals"
    overallSignal := ⟨"NEUTRAL", 50, "gray", "Low"⟩
    technicalAnalysis := ⟨50, []⟩
    fundamentalAnalysis := ⟨50, []⟩
    sentimentScore := 50
    intraday := ⟨"1-3 Days", "NEUTRAL", 50, "Short-term scalping and day trading"⟩
    swing := ⟨"1-4 Weeks", "NEUTRAL", 50, "Medium-term swing trading"⟩
    longTerm := ⟨"3-12 Months", "NEUTRAL", 50, "Long-term position trading"⟩ }

/-- The response of the signals route GET handler: a 400 error, a 200
with cached or freshly fetched data, or the 200 fallback body. -/
inductive SignalsResponse (α : Type) where
  | badRequest (message : String)
  | okPayload (payload : α)
  | okFallback (body : FallbackSignals)
  deriving DecidableEq, Repr

/-- HTTP status of a `SignalsResponse`: only the missing-ticker branch is
an error status; the provider-failure fallback is a 200. -/
def signalsStatus {α : Type} : SignalsResponse α → ℕ
  | .badRequest _ => 400
  | .okPayload _ => 200
  | .okFallback _ => 200

/-- The GET handler of `app/api/analysis/signals/route.ts` after its
I/O: `ticker` from the query string (`null` when absent, falsy when
empty), `cached` the Redis lookup, `fetched` the Python-service call. -/
def signalsGET {α ε : Type} (ticker : Option String) (cached : Option α)
    (fetched : Except ε α) : SignalsResponse α :=
  match ticker with
  | none => .badRequest "Ticker parameter is required"
  | some t =>
      if t.isEmpty then .badRequest "Ticker parameter is required"
      else
        match cached with
        | some c => .okPayload c
        | none =>
            match fetched with
            | .ok d => .okPayload d
            | .error _ => .okFallback (fallbackSignals t)

/-! ## Backtest route — `app/api/quant/backtest/route.ts` -/

/-- The JSON body of a backtest POST request. -/
structure BacktestBody where
  ticker : Option String
  startDate : Option String
  endDate : Option String
  initialCapital : Option ℚ
  deriving DecidableEq, Repr

/-- JavaScript truthiness of a nullable string: `null`/`undefined` and
the empty string are falsy. -/
def jsTruthyStr : Option String → Bool
  | none => false
  | some s => !s.isEmpty

/-- The regex `/^\d{4}-\d{2}-\d{2}$/`. -/
def matchesDateFormat (s : String) : Bool :=
  match s.data with
  | [a, b, c, d, e, f, g, h, i, j] =>
      a.isDigit && b.isDigit && c.isDigit && d.isDigit && e = '-'
        && f.isDigit && g.isDigit && h = '-' && i.isDigit && j.isDigit
  | _ => false

/-- `matchesDateFormat` lifted to the nullable field. -/
def dateFieldOk (s : Option String) : Bool :=
  match s with
  | none => false
  | some v => matchesDateFormat v

/-- Outcome of the POST handler's validation prologue: a 400 rejection
with the route's error message, or acceptance with the capital forwarded
to the Python service. -/
inductive BacktestValidation where
  | badRequest (message : String)
  | accepted (capital : ℚ)
  deriving DecidableEq, Repr

/-- The validation prologue of the backtest POST handler: required
fields, date format, then the capital range check on
`initialCapital || 100000`. -/
def validateBacktestRequest (b : BacktestBody) : BacktestValidation :=
  if !jsTruthyStr b.ticker || !jsTruthyStr b.startDate || !jsTruthyStr b.endDate then
    .badRequest "Missing required fields: ticker, startDate, endDate"
  else if !dateFieldOk b.startDate || !dateFieldOk b.endDate then
    .badRequest "Dates must be in YYYY-MM-DD format"
  else
    let capital := jsOrQ b.initialCapital 100000
    if capital < 1000 ∨ capital > 100000000 then
      .badRequest "Capital must be between 1,000 and 100,000,000"
    else .accepted capital

/-! ## Position simulator (spec-modelled) -/

/-- Exit reasons of a closed trade. -/
inductive ExitReason where
  | takeProfit
  | stopLoss
  | trailingStop
  | signalExit
  deriving DecidableEq, Repr

/-- Direction of the composite signal consumed by the simulator. -/
inductive SigDir where
  | buy
  | sell
  | hold
  deriving DecidableEq, Repr

/-- An open position of the simulator (spec §3 `Position`). -/
structure SimPosition where
  entryDate : ℕ
  entryPrice : ℚ
  stopLoss : ℚ
  takeProfit : ℚ
  trailingEnabled : Bool
  trailingArmed : Bool
  trailingLevel : ℚ
  highestSinceEntry : ℚ
  deriving DecidableEq, Repr

/-- A daily bar as consumed by the simulator. -/
structure SimBar where
  date : ℕ
  high : ℚ
  low : ℚ
  close : ℚ
  deriving DecidableEq, Repr

/-- A closed trade appended to the ledger. -/
structure SimTrade where
  exitDate : ℕ
  exitPrice : ℚ
  reason : ExitReason
  deriving DecidableEq, Repr

/-- Modelled from the spec: the per-bar exit evaluation of the
`PositionSimulator` (§4.4), whose code lives in the Python service
(`backtesting_enhanced.py`), not under `src/`.  The four conditions are
evaluated in the spec's fixed priority order — stop-loss first, then
trailing stop, then take-profit, then signal exit — and the first hit
wins. -/
def checkExit (pos : SimPosition) (bar : SimBar) (sig : SigDir) :
    Option (ExitReason × ℚ) :=
  if bar.low ≤ pos.stopLoss then some (ExitReason.stopLoss, pos.stopLoss)
  else if pos.trailingEnabled && pos.trailingArmed && bar.low ≤ pos.trailingLevel then
    some (ExitReason.trailingStop, pos.trailingLevel)
  else if bar.high ≥ pos.takeProfit then some (ExitReason.takeProfit, pos.takeProfit)
  else if sig = SigDir.sell then some (ExitReason.signalExit, bar.close)
  else none

/-- Modelled from the spec: one OPEN-state bar of the simulator (§4.4).
On an exit the position converts to exactly one ledger entry and the
state returns to FLAT; otherwise `highest_price_since_entry` is raised to
`max(previous, bar.high)` and the position stays open. -/
def simBarStep (pos : SimPosition) (bar : SimBar) (sig : SigDir) :
    Option SimPosition × List SimTrade :=
  match checkExit pos bar sig with
  | some (r, px) => (none, [⟨bar.date, px, r⟩])
  | none =>
      (some { pos with highestSinceEntry := max pos.highestSinceEntry bar.high }, [])

/-! ## Recommendation engine (spec-modelled) -/

/-- The five qualitative verdicts of the recommendation engine. -/
inductive Verdict where
  | strong
  | moderate
  | weak
  | notProfitable
  | notEnoughData
  deriving DecidableEq, Repr

/-- Modelled from the spec: `determine_best_strategy` of the Python
service (`backtesting_enhanced.py`), which is not under `src/`; the
ordered decision table follows spec §4.6 (first matching rule wins),
consistent with the BEST STRATEGY document in the repository.  Returns
the verdict and the recommended position size in percent of capital. -/
def determineBestStrategy (totalTrades : ℕ) (winRate sharpe : ℚ) :
    Verdict × ℚ :=
  if totalTrades < 30 then (Verdict.notEnoughData, 0)
  else if winRate < 45 then (Verdict.notProfitable, 0)
  else if winRate < 50 then (Verdict.weak, 1)
  else if winRate < 60 then (Verdict.moderate, 3)
  else if 60 ≤ winRate ∧ 1 ≤ sharpe ∧ 200 ≤ totalTrades then (Verdict.strong, 5)
  else (Verdict.moderate, 3)

/-! ## Helper lemmas -/

theorem calculateSMA_short {p : List ℚ} {n : ℕ} (h : p.length < n) :
    calculateSMA p n = none := by
  simp [calculateSMA, h]

theorem calculateEMA_short {p : List ℚ} {n : ℕ} (h : p.length < n) :
    calculateEMA p n = none := by
  simp [calculateEMA, h]

theorem calculateRSI_short {p : List ℚ} {n : ℕ} (h : p.length < n + 1) :
    calculateRSI p n = none := by
  simp [calculateRSI, h]

theorem calculateBollingerBands_short {p : List ℚ} {n : ℕ} (h : p.length < n)
    (sqrtFn : ℚ → ℚ) (sd : ℚ) :
    calculateBollingerBands sqrtFn p n sd = none := by
  simp [calculateBollingerBands, calculateSMA_short h]

theorem calculateMACD_short {p : List ℚ} (h : p.length < 26) :
    calculateMACD p = none := by
  rcases h12 : calculateEMA p 12 with _ | e12
  · simp [calculateMACD, h12]
  · simp [calculateMACD, h12, calculateEMA_short h]

theorem macdHistory_length_le (p : List ℚ) :
    (macdHistory p).length ≤ p.length + 1 - 26 := by
  calc (macdHistory p).length
      ≤ (((List.range (p.length + 1 - 26)).map (· + 26))).length :=
        List.length_filterMap_le _ _
    _ = p.length + 1 - 26 := by simp

/-- When the window supports the MACD line but not the 9-period signal
line (26 ≤ length ≤ 33), `calculateMACD` either returns `null` (zero-EMA
truthiness) or substitutes `0` for the signal line. -/
theorem calculateMACD_signal_zero {p : List ℚ} (h26 : 26 ≤ p.length)
    (h33 : p.length ≤ 33) :
    calculateMACD p = none ∨ ∃ m, calculateMACD p = some ⟨m, 0, m⟩ := by
  rcases h12 : calculateEMA p 12 with _ | e12
  · exact Or.inl (by simp [calculateMACD, h12])
  rcases h26' : calculateEMA p 26 with _ | e26
  · exact Or.inl (by simp [calculateMACD, h12, h26'])
  by_cases hz : e12 = 0 ∨ e26 = 0
  · exact Or.inl (by simp [calculateMACD, h12, h26', hz])
  · refine Or.inr ⟨e12 - e26, ?_⟩
    have hlen : (macdHistory p).length < 9 :=
      lt_of_le_of_lt (macdHistory_length_le p) (by omega)
    have hsig : calculateEMA (macdHistory p) 9 = none := calculateEMA_short hlen
    simp [calculateMACD, h12, h26', hz, hsig, jsOrQ]

theorem foldl_ema_const (m : ℚ) (c : ℚ) (l : List ℚ) (hl : ∀ x ∈ l, x = c) :
    l.foldl (fun ema p => (p - ema) * m + ema) c = c := by
  induction l with
  | nil => rfl
  | cons x xs ih =>
      have hx : x = c := hl x (List.mem_cons_self x xs)
      have : (x - c) * m + c = c := by rw [hx]; ring
      simpa [this] using ih fun y hy => hl y (List.mem_cons_of_mem x hy)

theorem calculateEMA_replicate (c : ℚ) (n period : ℕ) (hp : 0 < period)
    (h : period ≤ n) :
    calculateEMA (List.replicate n c) period = some c := by
  have hlen : ¬ (List.replicate n c).length < period := by
    simp [List.length_replicate]; omega
  have htake : (List.replicate n c).take period = List.replicate period c := by
    rw [List.take_replicate]; congr 1; omega
  have hsum : (List.replicate period c).sum = (period : ℚ) * c := by
    simp [List.sum_replicate, nsmul_eq_mul]
  have hseed : ((List.replicate n c).take period).sum / (period : ℚ) = c := by
    rw [htake, hsum, mul_div_cancel_left₀]
    exact Nat.cast_ne_zero.mpr hp.ne'
  simp only [calculateEMA, hlen, if_false]
  rw [hseed]
  congr 1
  refine foldl_ema_const _ c _ ?_
  intro x hx
  rw [List.drop_replicate] at hx
  exact List.eq_of_mem_replicate hx

theorem macdHistory_replicate_26 :
    macdHistory (List.replicate 26 (1 : ℚ)) = [0] := by
  have h12 := calculateEMA_replicate 1 26 12 (by norm_num) (by norm_num)
  have h26 := calculateEMA_replicate 1 26 26 (by norm_num) (by norm_num)
  have htake : (List.replicate 26 (1 : ℚ)).take 26 = List.replicate 26 (1 : ℚ) := by
    simp
  unfold macdHistory
  rw [List.length_replicate]
  have hrange : ((List.range (26 + 1 - 26)).map (· + 26)) = [26] := by
    simp [List.range_succ]
  rw [hrange, List.filterMap_cons]
  simp only [htake, h12, h26]
  norm_num

/-! ## Claim C2 -/

/-- C2 (amended): `calculateRSI`, `calculateSMA`, `calculateEMA` and
`calculateBollingerBands` return `null` whenever the price window is
shorter than the period they require (RSI needs `period + 1` prices), and
`calculateMACD` returns `null` whenever the window is shorter than the 26
bars of its slow EMA.  However, when the window supports the MACD line
but not the MACD(12,26,9) signal line (26–33 bars), `calculateMACD` does
not return `null`: it substitutes `0` for the unavailable signal line via
`calculateEMA(history, 9) || 0`. -/
theorem indicators_null_on_short_window (p : List ℚ) (n : ℕ)
    (sqrtFn : ℚ → ℚ) (sd : ℚ) :
    (p.length < n → calculateSMA p n = none) ∧
    (p.length < n → calculateEMA p n = none) ∧
    (p.length < n + 1 → calculateRSI p n = none) ∧
    (p.length < n → calculateBollingerBands sqrtFn p n sd = none) ∧
    (p.length < 26 → calculateMACD p = none) ∧
    (26 ≤ p.length → p.length ≤ 33 →
      calculateMACD p = none ∨ ∃ m, calculateMACD p = some ⟨m, 0, m⟩) :=
  ⟨fun h => calculateSMA_short h,
   fun h => calculateEMA_short h,
   fun h => calculateRSI_short h,
   fun h => calculateBollingerBands_short h sqrtFn sd,
   fun h => calculateMACD_short h,
   fun h26 h33 => calculateMACD_signal_zero h26 h33⟩

/-- C2 witness: the null guards and the signal-line substitution at
concrete windows. -/
theorem indicators_null_on_short_window_witness :
    calculateSMA [1] 2 = none ∧
    calculateEMA [1] 2 = none ∧
    calculateRSI [1] 1 = none ∧
    calculateBollingerBands id [1] 2 2 = none ∧
    calculateMACD [1] = none ∧
    (calculateMACD (List.replicate 26 (1 : ℚ)) = none ∨
      ∃ m, calculateMACD (List.replicate 26 (1 : ℚ)) = some ⟨m, 0, m⟩) :=
  ⟨(indicators_null_on_short_window [1] 2 id 2).1 (by simp),
   (indicators_null_on_short_window [1] 2 id 2).2.1 (by simp),
   (indicators_null_on_short_window [1] 1 id 2).2.2.1 (by simp),
   (indicators_null_on_short_window [1] 2 id 2).2.2.2.1 (by simp),
   (indicators_null_on_short_window [1] 2 id 2).2.2.2.2.1 (by simp),
   (indicators_null_on_short_window (List.replicate 26 (1 : ℚ)) 2 id 2).2.2.2.2.2
     (by simp) (by simp)⟩

/-- C2 counterexample: a 26-bar window is too short for the MACD(12,26,9)
signal line (which needs 34 bars), yet `calculateMACD` returns a result —
with the signal line substituted by `0` — instead of `null`. -/
theorem macd_not_null_on_26_bars :
    (List.replicate 26 (1 : ℚ)).length < 34 ∧
    calculateMACD (List.replicate 26 (1 : ℚ)) = some ⟨0, 0, 0⟩ := by
  constructor
  · simp
  · have h12 := calculateEMA_replicate 1 26 12 (by norm_num) (by norm_num)
    have h26 := calculateEMA_replicate 1 26 26 (by norm_num) (by norm_num)
    have hsig : calculateEMA [(0 : ℚ)] 9 = none := calculateEMA_short (by simp)
    simp only [calculateMACD, h12, h26, macdHistory_replicate_26, hsig, jsOrQ]
    norm_num

/-! ## Claim C8 -/

theorem wilderStep_nonneg (period : ℕ) (hp : 1 ≤ period) (s : ℚ × ℚ) (d : ℚ)
    (h1 : 0 ≤ s.1) (h2 : 0 ≤ s.2) :
    0 ≤ (wilderStep period s d).1 ∧ 0 ≤ (wilderStep period s d).2 := by
  have hpq : (0 : ℚ) ≤ (period : ℚ) := Nat.cast_nonneg period
  have hp1 : (0 : ℚ) ≤ (period : ℚ) - 1 := by
    have : (1 : ℚ) ≤ (period : ℚ) := by exact_mod_cast hp
    linarith
  have m1 : 0 ≤ s.1 * ((period : ℚ) - 1) := mul_nonneg h1 hp1
  have m2 : 0 ≤ s.2 * ((period : ℚ) - 1) := mul_nonneg h2 hp1
  unfold wilderStep
  split_ifs with hd
  · exact ⟨div_nonneg (by linarith) hpq, div_nonneg m2 hpq⟩
  · push_neg at hd
    exact ⟨div_nonneg m1 hpq, div_nonneg (by linarith) hpq⟩

theorem foldl_wilderStep_nonneg (period : ℕ) (hp : 1 ≤ period) (l : List ℚ) :
    ∀ s : ℚ × ℚ, 0 ≤ s.1 → 0 ≤ s.2 →
      0 ≤ (l.foldl (wilderStep period) s).1 ∧
        0 ≤ (l.foldl (wilderStep period) s).2 := by
  induction l with
  | nil => exact fun s h1 h2 => ⟨h1, h2⟩
  | cons d rest ih =>
      intro s h1 h2
      have step := wilderStep_nonneg period hp s d h1 h2
      simpa [List.foldl_cons] using ih _ step.1 step.2

theorem wilderAvgs_nonneg (p : List ℚ) (n : ℕ) (hn : 1 ≤ n) :
    0 ≤ (wilderAvgs p n).1 ∧ 0 ≤ (wilderAvgs p n).2 := by
  have hpq : (0 : ℚ) ≤ (n : ℚ) := Nat.cast_nonneg n
  have hg : 0 ≤ (((priceDiffs p).take n).map fun d =>
      if 0 ≤ d then d else 0).sum := by
    refine List.sum_nonneg ?_
    intro x hx
    obtain ⟨d, _, rfl⟩ := List.mem_map.mp hx
    split_ifs with h
    · exact h
    · norm_num
  have hl : 0 ≤ (((priceDiffs p).take n).map fun d =>
      if 0 ≤ d then 0 else -d).sum := by
    refine List.sum_nonneg ?_
    intro x hx
    obtain ⟨d, _, rfl⟩ := List.mem_map.mp hx
    split_ifs with h
    · norm_num
    · push_neg at h
      linarith
  have := foldl_wilderStep_nonneg n hn ((priceDiffs p).drop n)
    ((((priceDiffs p).take n).map fun d => if 0 ≤ d then d else 0).sum / n,
      (((priceDiffs p).take n).map fun d => if 0 ≤ d then 0 else -d).sum / n)
    (div_nonneg hg hpq) (div_nonneg hl hpq)
  simpa only [wilderAvgs] using this

/-- C8: whenever `calculateRSI` returns a number it lies in `[0, 100]`;
the Wilder-smoothed average gain and average loss are non-negative
throughout the fold, and a zero average loss is guarded to `100`, so
`avgGain / avgLoss` never divides by zero. -/
theorem calculateRSI_in_range (p : List ℚ) (n : ℕ) (hn : 1 ≤ n) :
    0 ≤ (wilderAvgs p n).1 ∧ 0 ≤ (wilderAvgs p n).2 ∧
    ((wilderAvgs p n).2 = 0 → n + 1 ≤ p.length → calculateRSI p n = some 100) ∧
    ∀ r, calculateRSI p n = some r → 0 ≤ r ∧ r ≤ 100 := by
  obtain ⟨hg, hl⟩ := wilderAvgs_nonneg p n hn
  refine ⟨hg, hl, ?_, ?_⟩
  · intro hz hlen
    have : ¬ p.length < n + 1 := Nat.not_lt.mpr hlen
    simp [calculateRSI, this, hz]
  · intro r hr
    by_cases hlen : p.length < n + 1
    · simp [calculateRSI, hlen] at hr
    · rw [calculateRSI, if_neg hlen] at hr
      by_cases hz : (wilderAvgs p n).2 = 0
      · rw [if_pos hz, Option.some_inj] at hr
        constructor <;> simp [← hr]
      · rw [if_neg hz, Option.some_inj] at hr
        have hlpos : 0 < (wilderAvgs p n).2 := lt_of_le_of_ne hl (Ne.symm hz)
        have hx : 0 ≤ (wilderAvgs p n).1 / (wilderAvgs p n).2 :=
          div_nonneg hg hl
        have h1 : (1 : ℚ) ≤ 1 + (wilderAvgs p n).1 / (wilderAvgs p n).2 := by
          linarith
        have hdle : 100 / (1 + (wilderAvgs p n).1 / (wilderAvgs p n).2) ≤ 100 :=
          div_le_self (by norm_num) h1
        have hdnn : 0 ≤ 100 / (1 + (wilderAvgs p n).1 / (wilderAvgs p n).2) :=
          div_nonneg (by norm_num) (by linarith)
        constructor <;> [linarith [hr.symm.le, hr.le] ; linarith [hr.symm.le, hr.le]]

/-- C8 witness: the range theorem applied to a concrete 15-bar uptrend,
where the smoothed loss is zero and the guard yields exactly 100. -/
theorem calculateRSI_in_range_witness :
    (1 ≤ 14) ∧
    calculateRSI [1, 2, 3, 4, 5, 6, 7, 8, 9, 10, 11, 12, 13, 14, 15] 14 = some 100 ∧
    ((0 : ℚ) ≤ 100 ∧ (100 : ℚ) ≤ 100) := by
  have heval : calculateRSI [1, 2, 3, 4, 5, 6, 7, 8, 9, 10, 11, 12, 13, 14, 15] 14
      = some 100 := by
    norm_num [calculateRSI, wilderAvgs, priceDiffs]
  exact ⟨by norm_num, heval,
    (calculateRSI_in_range [1, 2, 3, 4, 5, 6, 7, 8, 9, 10, 11, 12, 13, 14, 15] 14
      (by norm_num)).2.2.2 100 heval⟩

/-! ## Claim C9 -/

theorem overallSignalOf_spec (a b c : Signal) :
    (overallSignalOf a b c = Signal.buy ↔
      2 ≤ (([a, b, c]).filter (· = Signal.buy)).length) ∧
    (overallSignalOf a b c = Signal.sell ↔
      2 ≤ (([a, b, c]).filter (· = Signal.sell)).length) ∧
    (overallSignalOf a b c = Signal.neutral ↔
      ¬ 2 ≤ (([a, b, c]).filter (· = Signal.buy)).length ∧
        ¬ 2 ≤ (([a, b, c]).filter (· = Signal.sell)).length) ∧
    ¬ (2 ≤ (([a, b, c]).filter (· = Signal.buy)).length ∧
        2 ≤ (([a, b, c]).filter (· = Signal.sell)).length) := by
  rcases a <;> rcases b <;> rcases c <;> simp [overallSignalOf]

/-- C9: in `calculateAllIndicators` the overall signal is `buy` exactly
when at least two of the RSI/MACD/SMA sub-signals are `buy`, `sell`
exactly when at least two are `sell`, `neutral` otherwise; the two
majority conditions can never hold simultaneously over three votes. -/
theorem overall_signal_is_majority_vote (sqrtFn : ℚ → ℚ)
    (chartData : List ChartData) :
    ((calculateAllIndicators sqrtFn chartData).signals.overall = Signal.buy ↔
      2 ≤ (([(calculateAllIndicators sqrtFn chartData).signals.rsi,
             (calculateAllIndicators sqrtFn chartData).signals.macd,
             (calculateAllIndicators sqrtFn chartData).signals.sma]).filter
              (· = Signal.buy)).length) ∧
    ((calculateAllIndicators sqrtFn chartData).signals.overall = Signal.sell ↔
      2 ≤ (([(calculateAllIndicators sqrtFn chartData).signals.rsi,
             (calculateAllIndicators sqrtFn chartData).signals.macd,
             (calculateAllIndicators sqrtFn chartData).signals.sma]).filter
              (· = Signal.sell)).length) ∧
    ((calculateAllIndicators sqrtFn chartData).signals.overall = Signal.neutral ↔
      ¬ 2 ≤ (([(calculateAllIndicators sqrtFn chartData).signals.rsi,
               (calculateAllIndicators sqrtFn chartData).signals.macd,
               (calculateAllIndicators sqrtFn chartData).signals.sma]).filter
                (· = Signal.buy)).length ∧
        ¬ 2 ≤ (([(calculateAllIndicators sqrtFn chartData).signals.rsi,
                 (calculateAllIndicators sqrtFn chartData).signals.macd,
                 (calculateAllIndicators sqrtFn chartData).signals.sma]).filter
                  (· = Signal.sell)).length) ∧
    ¬ (2 ≤ (([(calculateAllIndicators sqrtFn chartData).signals.rsi,
              (calculateAllIndicators sqrtFn chartData).signals.macd,
              (calculateAllIndicators sqrtFn chartData).signals.sma]).filter
               (· = Signal.buy)).length ∧
        2 ≤ (([(calculateAllIndicators sqrtFn chartData).signals.rsi,
               (calculateAllIndicators sqrtFn chartData).signals.macd,
               (calculateAllIndicators sqrtFn chartData).signals.sma]).filter
                (· = Signal.sell)).length) :=
  overallSignalOf_spec (calculateAllIndicators sqrtFn chartData).signals.rsi
    (calculateAllIndicators sqrtFn chartData).signals.macd
    (calculateAllIndicators sqrtFn chartData).signals.sma

/-! ## Claim C7 -/

/-- C7: `analyzeSentiment` always lands in `[-1, 1]` (it is clamped by
`Math.max(-1, Math.min(1, ...))`), and `calculateAverageSentiment` of an
empty article list is exactly `0`, the neutral default. -/
theorem sentiment_in_range_and_neutral_default (text : String) :
    -1 ≤ analyzeSentiment text ∧ analyzeSentiment text ≤ 1 ∧
    calculateAverageSentiment [] = 0 := by
  refine ⟨?_, ?_, by simp [calculateAverageSentiment]⟩
  · simp only [analyzeSentiment]
    exact le_max_left _ _
  · simp only [analyzeSentiment]
    exact max_le (by norm_num) (min_le_left _ _)

/-! ## Claim C1 -/

theorem rsiAdj_bounds (r : Option ℚ) : -20 ≤ rsiAdj r ∧ rsiAdj r ≤ 20 := by
  cases r with
  | none => simp [rsiAdj]
  | some v =>
      simp only [rsiAdj]
      split_ifs <;> norm_num

theorem macdAdj_bounds (m : Option MACDResult) :
    -10 ≤ macdAdj m ∧ macdAdj m ≤ 15 := by
  cases m with
  | none => simp [macdAdj]
  | some v =>
      simp only [macdAdj]
      split_ifs <;> norm_num

theorem smaAdj_bounds (a b : Option ℚ) : -10 ≤ smaAdj a b ∧ smaAdj a b ≤ 15 := by
  simp only [smaAdj]
  split_ifs with h
  · rcases a with _ | x <;> rcases b with _ | y <;> simp <;> split_ifs <;> norm_num
  · norm_num

theorem volumeAdj_bounds (q : Quote) : 0 ≤ volumeAdj q ∧ volumeAdj q ≤ 10 := by
  simp only [volumeAdj]
  split_ifs <;> norm_num

theorem technicalScoreOf_bounds (q : Quote) (ind : TechnicalIndicators) :
    10 ≤ technicalScoreOf q ind ∧ technicalScoreOf q ind ≤ 110 := by
  obtain ⟨h1, h2⟩ := rsiAdj_bounds ind.rsi
  obtain ⟨h3, h4⟩ := macdAdj_bounds ind.macd
  obtain ⟨h5, h6⟩ := smaAdj_bounds ind.sma20 ind.sma50
  obtain ⟨h7, h8⟩ := volumeAdj_bounds q
  unfold technicalScoreOf
  constructor <;> linarith

theorem peAdj_bounds (v : Option ℚ) : -10 ≤ peAdj v ∧ peAdj v ≤ 15 := by
  cases v with
  | none => simp [peAdj]
  | some x =>
      simp only [peAdj]
      split_ifs <;> norm_num

theorem roeAdj_bounds (v : Option ℚ) : 0 ≤ roeAdj v ∧ roeAdj v ≤ 15 := by
  cases v with
  | none => simp [roeAdj]
  | some x =>
      simp only [roeAdj]
      split_ifs <;> norm_num

theorem debtAdj_bounds (v : Option ℚ) : -10 ≤ debtAdj v ∧ debtAdj v ≤ 10 := by
  cases v with
  | none => simp [debtAdj]
  | some x =>
      simp only [debtAdj]
      split_ifs <;> norm_num

theorem marginAdj_bounds (v : Option ℚ) : 0 ≤ marginAdj v ∧ marginAdj v ≤ 10 := by
  cases v with
  | none => simp [marginAdj]
  | some x =>
      simp only [marginAdj]
      split_ifs <;> norm_num

theorem fundamentalScoreOf_bounds (f : Fundamentals) :
    30 ≤ fundamentalScoreOf f ∧ fundamentalScoreOf f ≤ 100 := by
  obtain ⟨h1, h2⟩ := peAdj_bounds f.pe
  obtain ⟨h3, h4⟩ := roeAdj_bounds f.roe
  obtain ⟨h5, h6⟩ := debtAdj_bounds f.debtToEquity
  obtain ⟨h7, h8⟩ := marginAdj_bounds f.profitMargin
  unfold fundamentalScoreOf
  constructor <;> linarith

theorem sentimentAdj_bounds (avg : ℚ) : -20 ≤ sentimentAdj avg ∧ sentimentAdj avg ≤ 20 := by
  simp only [sentimentAdj]
  split_ifs <;> norm_num

theorem sentimentScoreOf_bounds (news : List NewsArticle) :
    30 ≤ sentimentScoreOf news ∧ sentimentScoreOf news ≤ 70 := by
  simp only [sentimentScoreOf]
  split_ifs with h
  · obtain ⟨h1, h2⟩ := sentimentAdj_bounds
      ((news.map fun a => analyzeSentiment (articleText a)).sum /
        ((news.map fun a => analyzeSentiment (articleText a)).length : ℚ))
    constructor <;> linarith
  · norm_num

theorem totalScoreOf_bounds (q : Quote) (ind : TechnicalIndicators)
    (f : Fundamentals) (news : List NewsArticle) :
    22 ≤ totalScoreOf q ind f news ∧ totalScoreOf q ind f news ≤ 96.5 := by
  obtain ⟨h1, h2⟩ := technicalScoreOf_bounds q ind
  obtain ⟨h3, h4⟩ := fundamentalScoreOf_bounds f
  obtain ⟨h5, h6⟩ := sentimentScoreOf_bounds news
  unfold totalScoreOf
  constructor <;> nlinarith

theorem jsRound_mono {x y : ℚ} (h : x ≤ y) : jsRound x ≤ jsRound y :=
  Int.floor_le_floor (by linarith)

/-- C1 (amended): `scoreStock` caps no score at 85.  Every score is
non-negative — as the claim's lower bound states — but the actual ranges
are: technical in `[10, 110]`, fundamental in `[30, 100]`, sentiment in
`[30, 70]`, and the weighted total in `[22, 96.5]` (at most 97 after
rounding); the fundamental sub-score in particular can reach 100. -/
theorem scoreStock_score_ranges (sqrtFn : ℚ → ℚ) (ticker : String) (q : Quote)
    (chartData : List ChartData) (f : Fundamentals) (news : List NewsArticle) :
    10 ≤ (scoreStock sqrtFn ticker q chartData f news).scores.technical ∧
    (scoreStock sqrtFn ticker q chartData f news).scores.technical ≤ 110 ∧
    30 ≤ (scoreStock sqrtFn ticker q chartData f news).scores.fundamental ∧
    (scoreStock sqrtFn ticker q chartData f news).scores.fundamental ≤ 100 ∧
    30 ≤ (scoreStock sqrtFn ticker q chartData f news).scores.sentiment ∧
    (scoreStock sqrtFn ticker q chartData f news).scores.sentiment ≤ 70 ∧
    22 ≤ (scoreStock sqrtFn ticker q chartData f news).totalScore ∧
    (scoreStock sqrtFn ticker q chartData f news).totalScore ≤ 97 := by
  have et : (scoreStock sqrtFn ticker q chartData f news).scores.technical
      = jsRound (technicalScoreOf q (calculateAllIndicators sqrtFn chartData)) := rfl
  have ef : (scoreStock sqrtFn ticker q chartData f news).scores.fundamental
      = jsRound (fundamentalScoreOf f) := rfl
  have es : (scoreStock sqrtFn ticker q chartData f news).scores.sentiment
      = jsRound (sentimentScoreOf news) := rfl
  have eo : (scoreStock sqrtFn ticker q chartData f news).totalScore
      = jsRound (totalScoreOf q (calculateAllIndicators sqrtFn chartData) f news) := rfl
  obtain ⟨t1, t2⟩ := technicalScoreOf_bounds q (calculateAllIndicators sqrtFn chartData)
  obtain ⟨f1, f2⟩ := fundamentalScoreOf_bounds f
  obtain ⟨s1, s2⟩ := sentimentScoreOf_bounds news
  obtain ⟨o1, o2⟩ := totalScoreOf_bounds q (calculateAllIndicators sqrtFn chartData) f news
  have r10 : jsRound (10 : ℚ) = 10 := by norm_num [jsRound]
  have r110 : jsRound (110 : ℚ) = 110 := by norm_num [jsRound]
  have r30 : jsRound (30 : ℚ) = 30 := by norm_num [jsRound]
  have r100 : jsRound (100 : ℚ) = 100 := by norm_num [jsRound]
  have r70 : jsRound (70 : ℚ) = 70 := by norm_num [jsRound]
  have r22 : jsRound (22 : ℚ) = 22 := by norm_num [jsRound]
  have r965 : jsRound (96.5 : ℚ) = 97 := by norm_num [jsRound]
  refine ⟨?_, ?_, ?_, ?_, ?_, ?_, ?_, ?_⟩
  · rw [et, ← r10]; exact jsRound_mono t1
  · rw [et, ← r110]; exact jsRound_mono t2
  · rw [ef, ← r30]; exact jsRound_mono f1
  · rw [ef, ← r100]; exact jsRound_mono f2
  · rw [es, ← r30]; exact jsRound_mono s1
  · rw [es, ← r70]; exact jsRound_mono s2
  · rw [eo, ← r22]; exact jsRound_mono o1
  · rw [eo, ← r965]; exact jsRound_mono o2

/-- C1 counterexample: with attractive fundamentals (P/E 10, ROE 0.2,
debt/equity 0.5, margin 0.3) the fundamental sub-score returned by
`scoreStock` is 100, above the claimed cap of 85. -/
theorem fundamental_score_exceeds_cap :
    (scoreStock id "AAPL" ⟨"Apple", 100, 100, 0, 0⟩ []
        ⟨some 10, some (1/5), some (1/2), some (3/10)⟩ []).scores.fundamental = 100 ∧
    ¬ ((scoreStock id "AAPL" ⟨"Apple", 100, 100, 0, 0⟩ []
        ⟨some 10, some (1/5), some (1/2), some (3/10)⟩ []).scores.fundamental ≤ 85) := by
  have h : (scoreStock id "AAPL" ⟨"Apple", 100, 100, 0, 0⟩ []
        ⟨some 10, some (1/5), some (1/2), some (3/10)⟩ []).scores.fundamental
      = jsRound (fundamentalScoreOf ⟨some 10, some (1/5), some (1/2), some (3/10)⟩) := rfl
  have h2 : fundamentalScoreOf ⟨some 10, some (1/5), some (1/2), some (3/10)⟩ = 100 := by
    norm_num [fundamentalScoreOf, peAdj, roeAdj, debtAdj, marginAdj]
  rw [h, h2]
  norm_num [jsRound]

/-! ## Claim C3 -/

/-- C3 (amended): the composite weights of `scoreStock` are technical
40%, fundamental 35%, sentiment 25% — not 50/30/20 — and the returned
`totalScore` is the rounded weighted total. -/
theorem scoreStock_composite_weights (sqrtFn : ℚ → ℚ) (ticker : String)
    (q : Quote) (chartData : List ChartData) (f : Fundamentals)
    (news : List NewsArticle) :
    totalScoreOf q (calculateAllIndicators sqrtFn chartData) f news
      = 0.4 * technicalScoreOf q (calculateAllIndicators sqrtFn chartData)
        + 0.35 * fundamentalScoreOf f + 0.25 * sentimentScoreOf news ∧
    (scoreStock sqrtFn ticker q chartData f news).totalScore
      = jsRound (totalScoreOf q (calculateAllIndicators sqrtFn chartData) f news) := by
  constructor
  · unfold totalScoreOf; ring
  · rfl

/-- C3 counterexample: technical 50, fundamental 75, sentiment 50 gives a
weighted total of 58.75 under the implemented 40/35/25 weights, while the
claimed 50/30/20 weights would give 57.5. -/
theorem composite_weights_counterexample :
    technicalScoreOf ⟨"N", 50, 100, 0, 0⟩ (calculateAllIndicators id []) = 50 ∧
    fundamentalScoreOf ⟨none, some (1/5), none, some (3/10)⟩ = 75 ∧
    sentimentScoreOf [] = 50 ∧
    totalScoreOf ⟨"N", 50, 100, 0, 0⟩ (calculateAllIndicators id [])
      ⟨none, some (1/5), none, some (3/10)⟩ [] = 58.75 ∧
    (58.75 : ℚ) ≠ 50 * 0.5 + 75 * 0.3 + 50 * 0.2 := by
  have ht : technicalScoreOf ⟨"N", 50, 100, 0, 0⟩ (calculateAllIndicators id []) = 50 := by
    norm_num [technicalScoreOf, calculateAllIndicators, calculateRSI, calculateMACD,
      calculateEMA, calculateSMA, rsiAdj, macdAdj, smaAdj, volumeAdj, jsTruthyQ]
  have hf : fundamentalScoreOf ⟨none, some (1/5), none, some (3/10)⟩ = 75 := by
    norm_num [fundamentalScoreOf, peAdj, roeAdj, debtAdj, marginAdj]
  have hs : sentimentScoreOf [] = 50 := by norm_num [sentimentScoreOf]
  refine ⟨ht, hf, hs, ?_, by norm_num⟩
  unfold totalScoreOf
  rw [ht, hf, hs]
  norm_num

/-! ## Claim C4 -/

/-- C4: while a position is open, a bar whose range spans both exit levels
(`bar.low ≤ stop_loss` and `bar.high ≥ take_profit`) records exactly one
exit, with reason `STOP_LOSS`: the stop-loss condition is evaluated first
and the first hit wins. -/
theorem bar_spanning_both_levels_exits_stop_loss (pos : SimPosition)
    (bar : SimBar) (sig : SigDir) (hlow : bar.low ≤ pos.stopLoss)
    (_hhigh : pos.takeProfit ≤ bar.high) :
    (simBarStep pos bar sig).2 = [⟨bar.date, pos.stopLoss, ExitReason.stopLoss⟩] ∧
    (simBarStep pos bar sig).1 = none := by
  have hc : checkExit pos bar sig = some (ExitReason.stopLoss, pos.stopLoss) := by
    simp [checkExit, hlow]
  simp [simBarStep, hc]

/-- C4 witness: a concrete bar 5 breaching both the stop (95) and the
target (110) produces the single `STOP_LOSS` ledger entry. -/
theorem bar_spanning_both_levels_witness :
    ((94 : ℚ) ≤ 95 ∧ (110 : ℚ) ≤ 111) ∧
    (simBarStep ⟨0, 100, 95, 110, false, false, 0, 100⟩ ⟨5, 111, 94, 100⟩
        SigDir.buy).2 = [⟨5, 95, ExitReason.stopLoss⟩] ∧
    (simBarStep ⟨0, 100, 95, 110, false, false, 0, 100⟩ ⟨5, 111, 94, 100⟩
        SigDir.buy).1 = none :=
  ⟨⟨by norm_num, by norm_num⟩,
   bar_spanning_both_levels_exits_stop_loss ⟨0, 100, 95, 110, false, false, 0, 100⟩
     ⟨5, 111, 94, 100⟩ SigDir.buy (by norm_num) (by norm_num)⟩

/-! ## Claim C5 -/

/-- C5 (amended): when the Python service call fails, the signals GET
handler does not propagate an error status; it returns HTTP 200 with a
fallback body that flags the failure in an embedded error message but
otherwise fabricates a neutral result — overall signal NEUTRAL with score
50, and score 50 for every timeframe. -/
theorem signals_route_neutral_fallback {α ε : Type} (t : String) (e : ε)
    (ht : t.isEmpty = false) :
    signalsGET (α := α) (some t) none (Except.error e)
      = SignalsResponse.okFallback (fallbackSignals t) ∧
    signalsStatus (signalsGET (α := α) (some t) none (Except.error e)) = 200 ∧
    (fallbackSignals t).overallSignal.signal = "NEUTRAL" ∧
    (fallbackSignals t).overallSignal.score = 50 ∧
    (fallbackSignals t).errorMessage = "Unable to fetch trading signals" ∧
    (fallbackSignals t).intraday.score = 50 ∧
    (fallbackSignals t).swing.score = 50 ∧
    (fallbackSignals t).longTerm.score = 50 := by
  have h : signalsGET (α := α) (some t) none (Except.error e)
      = SignalsResponse.okFallback (fallbackSignals t) := by
    simp [signalsGET, ht]
  exact ⟨h, by rw [h]; rfl, rfl, rfl, rfl, rfl, rfl, rfl⟩

/-- C5 witness: the fallback at the concrete ticker AAPL. -/
theorem signals_route_neutral_fallback_witness :
    ("AAPL".isEmpty = false) ∧
    (signalsGET (α := Unit) (some "AAPL") none (Except.error ())
        = SignalsResponse.okFallback (fallbackSignals "AAPL") ∧
      signalsStatus (signalsGET (α := Unit) (some "AAPL") none (Except.error ())) = 200 ∧
      (fallbackSignals "AAPL").overallSignal.signal = "NEUTRAL" ∧
      (fallbackSignals "AAPL").overallSignal.score = 50 ∧
      (fallbackSignals "AAPL").errorMessage = "Unable to fetch trading signals" ∧
      (fallbackSignals "AAPL").intraday.score = 50 ∧
      (fallbackSignals "AAPL").swing.score = 50 ∧
      (fallbackSignals "AAPL").longTerm.score = 50) :=
  ⟨rfl, signals_route_neutral_fallback "AAPL" () rfl⟩

/-- C5 counterexample to the claim as stated: on a provider failure for
ticker AAPL the handler returns exactly the default score-50 NEUTRAL
payload (with status 200), rather than propagating an error. -/
theorem signals_route_returns_neutral_on_failure :
    signalsGET (α := Unit) (some "AAPL") none (Except.error ())
      = SignalsResponse.okFallback (fallbackSignals "AAPL") ∧
    signalsStatus (signalsGET (α := Unit) (some "AAPL") none (Except.error ())) = 200 ∧
    (fallbackSignals "AAPL").overallSignal.signal = "NEUTRAL" ∧
    (fallbackSignals "AAPL").overallSignal.score = 50 := by
  exact ⟨rfl, rfl, rfl, rfl⟩

/-! ## Claim C6 -/

/-- C6: the recommendation decision table is evaluated in order with the
first matching rule winning: fewer than 30 trades yields NOT_ENOUGH_DATA
with position size 0% regardless of win rate, and win rate ≥ 60 with
Sharpe ≥ 1.0 and ≥ 200 trades yields STRONG with position size 5%. -/
theorem recommendation_decision_table (t : ℕ) (w s : ℚ) :
    (t < 30 → determineBestStrategy t w s = (Verdict.notEnoughData, 0)) ∧
    (60 ≤ w → 1 ≤ s → 200 ≤ t →
      determineBestStrategy t w s = (Verdict.strong, 5)) := by
  constructor
  · intro h
    simp [determineBestStrategy, h]
  · intro hw hs ht
    have h1 : ¬ t < 30 := by omega
    have h2 : ¬ w < 45 := by linarith
    have h3 : ¬ w < 50 := by linarith
    have h4 : ¬ w < 60 := by linarith
    simp [determineBestStrategy, h1, h2, h3, h4, hw, hs, ht]

/-- C6 witness: 10 trades at 80% win rate is NOT_ENOUGH_DATA at 0%;
250 trades, 62% win rate, Sharpe 1.3 is STRONG at 5%. -/
theorem recommendation_decision_table_witness :
    (10 < 30 ∧ determineBestStrategy 10 80 2 = (Verdict.notEnoughData, 0)) ∧
    ((60 : ℚ) ≤ 62 ∧ (1 : ℚ) ≤ 1.3 ∧ 200 ≤ 250 ∧
      determineBestStrategy 250 62 1.3 = (Verdict.strong, 5)) :=
  ⟨⟨by norm_num, (recommendation_decision_table 10 80 2).1 (by norm_num)⟩,
   ⟨by norm_num, by norm_num, by norm_num,
     (recommendation_decision_table 250 62 1.3).2 (by norm_num) (by norm_num)
       (by norm_num)⟩⟩

/-! ## Claim C10 -/

/-- C10: the backtest POST handler rejects with 400 any request missing
(or with an empty) ticker, startDate or endDate, any request whose dates
fail the `YYYY-MM-DD` pattern, and any whose capital — after defaulting —
falls outside `[1000, 100000000]`; a missing or zero `initialCapital` is
replaced by 100000 before the range check, so such a request is
accepted. -/
theorem backtest_validation_rules (b : BacktestBody) :
    ((jsTruthyStr b.ticker = false ∨ jsTruthyStr b.startDate = false ∨
        jsTruthyStr b.endDate = false) →
      validateBacktestRequest b
        = BacktestValidation.badRequest "Missing required fields: ticker, startDate, endDate") ∧
    (jsTruthyStr b.ticker = true → jsTruthyStr b.startDate = true →
      jsTruthyStr b.endDate = true →
      (dateFieldOk b.startDate = false ∨ dateFieldOk b.endDate = false) →
      validateBacktestRequest b
        = BacktestValidation.badRequest "Dates must be in YYYY-MM-DD format") ∧
    (jsTruthyStr b.ticker = true → jsTruthyStr b.startDate = true →
      jsTruthyStr b.endDate = true →
      dateFieldOk b.startDate = true → dateFieldOk b.endDate = true →
      (jsOrQ b.initialCapital 100000 < 1000 ∨
        jsOrQ b.initialCapital 100000 > 100000000) →
      validateBacktestRequest b
        = BacktestValidation.badRequest "Capital must be between 1,000 and 100,000,000") ∧
    (jsTruthyStr b.ticker = true → jsTruthyStr b.startDate = true →
      jsTruthyStr b.endDate = true →
      dateFieldOk b.startDate = true → dateFieldOk b.endDate = true →
      (b.initialCapital = none ∨ b.initialCapital = some 0) →
      validateBacktestRequest b = BacktestValidation.accepted 100000) := by
  refine ⟨?_, ?_, ?_, ?_⟩
  · intro h
    rcases h with h | h | h <;> simp [validateBacktestRequest, h]
  · intro h1 h2 h3 h
    rcases h with h | h <;> simp [validateBacktestRequest, h1, h2, h3, h]
  · intro h1 h2 h3 h4 h5 h
    simp [validateBacktestRequest, h1, h2, h3, h4, h5, h]
  · intro h1 h2 h3 h4 h5 h
    have hcap : jsOrQ b.initialCapital 100000 = 100000 := by
      rcases h with h | h <;> simp [jsOrQ, h]
    simp [validateBacktestRequest, h1, h2, h3, h4, h5, hcap]
    norm_num

/-- C10 witness: concrete requests exercising each validation rule. -/
theorem backtest_validation_rules_witness :
    validateBacktestRequest ⟨none, some "2020-01-01", some "2021-01-01", none⟩
      = BacktestValidation.badRequest "Missing required fields: ticker, startDate, endDate" ∧
    validateBacktestRequest ⟨some "TCS", some "2020-1-01", some "2021-01-01", none⟩
      = BacktestValidation.badRequest "Dates must be in YYYY-MM-DD format" ∧
    validateBacktestRequest ⟨some "TCS", some "2020-01-01", some "2021-01-01", some 5⟩
      = BacktestValidation.badRequest "Capital must be between 1,000 and 100,000,000" ∧
    validateBacktestRequest ⟨some "TCS", some "2020-01-01", some "2021-01-01", none⟩
      = BacktestValidation.accepted 100000 ∧
    validateBacktestRequest ⟨some "TCS", some "2020-01-01", some "2021-01-01", some 0⟩
      = BacktestValidation.accepted 100000 :=
  ⟨(backtest_validation_rules ⟨none, some "2020-01-01", some "2021-01-01", none⟩).1
      (Or.inl rfl),
   (backtest_validation_rules ⟨some "TCS", some "2020-1-01", some "2021-01-01", none⟩).2.1
      rfl rfl rfl (Or.inl rfl),
   (backtest_validation_rules ⟨some "TCS", some "2020-01-01", some "2021-01-01", some 5⟩).2.2.1
      rfl rfl rfl rfl rfl (Or.inl (by norm_num [jsOrQ])),
   (backtest_validation_rules ⟨some "TCS", some "2020-01-01", some "2021-01-01", none⟩).2.2.2
      rfl rfl rfl rfl rfl (Or.inl rfl),
   (backtest_validation_rules ⟨some "TCS", some "2020-01-01", some "2021-01-01", some 0⟩).2.2.2
      rfl rfl rfl rfl rfl (Or.inr rfl)⟩

end Tradee
